import Mathlib

/- Formal model of the music-jester single-track player (src/main.rs): the
   session-controller state machine (MusicJester::update), the recursive
   directory scanner (find_audio_files / is_supported_audio_file) and the
   tag extractors (extract_album_art / extract_metadata).  External effects
   (the rodio output device and decoder, the lofty tag parser, the
   filesystem and the folder dialog) are parametrised by an environment so
   that the controller logic itself is an executable function.  The iced
   runtime's asynchronous Command completion is modelled by a system state
   carrying a list of pending commands which may complete in any order. -/

namespace Jester

/- Filesystem trees as seen by fs::read_dir: a node is a plain file, or a
   directory whose read_dir either succeeds (flag true) with a list of named
   children, or fails (flag false, e.g. permission denied). -/
mutual
inductive Fs : Type where
  | file : Fs
  | dir : Bool → Entries → Fs
inductive Entries : Type where
  | nil : Entries
  | cons : String → Fs → Entries → Entries
end

def Fs.isDir : Fs → Bool
  | .file => false
  | .dir _ _ => true

def Entries.append : Entries → Entries → Entries
  | .nil, e2 => e2
  | .cons name sub rest, e2 => .cons name sub (rest.append e2)

/- entry.path(): the path of a named child of directory dir. -/
def childPath (dir name : String) : String := dir ++ "/" ++ name

/- Split a character list at every occurrence of a separator (the semantics
   of str::split with a one-character pattern, written so that it reduces
   definitionally). -/
def splitChar (sep : Char) : List Char → List (List Char)
  | [] => [[]]
  | c :: cs =>
    match splitChar sep cs with
    | [] => [[c]]
    | r :: rs => if c == sep then [] :: r :: rs else (c :: r) :: rs

/- Path::file_name: the final component of a path. -/
def file_name (path : String) : List Char := (splitChar '/' path.data).getLastD []

/- Path::extension: the part of the file name after the final dot; absent
   when the name has no dot, or when its only dot is the leading one. -/
def extension (name : List Char) : Option (List Char) :=
  match splitChar '.' name with
  | [] => none
  | [_] => none
  | head :: rest =>
    if head.isEmpty && rest.length == 1 then none else some (rest.getLastD [])

/- matches!(path.extension().and_then(|e| e.to_str()),
            Some("mp3" | "m4a" | "flac" | "wav" | "ogg")) -/
def is_supported_audio_file (path : String) : Bool :=
  match extension (file_name path) with
  | some e =>
    e == "mp3".data || e == "m4a".data || e == "flac".data ||
      e == "wav".data || e == "ogg".data
  | none => false

mutual
/- find_audio_files(dir): a non-directory or a directory whose read_dir
   fails contributes nothing; otherwise the children are processed in
   order, recursing into subdirectories and keeping supported audio files. -/
def find_audio_files (dir : String) : Fs → List String
  | .file => []
  | .dir false _ => []
  | .dir true entries => find_audio_files_entries dir entries
def find_audio_files_entries (dir : String) : Entries → List String
  | .nil => []
  | .cons name sub rest =>
    (if sub.isDir then find_audio_files (childPath dir name) sub
     else if is_supported_audio_file (childPath dir name) then [childPath dir name]
     else [])
    ++ find_audio_files_entries dir rest
end

mutual
/- Specification-side enumeration of every file path at any depth of a
   tree, ignoring readability flags (used to state claim C3). -/
def allFiles (base : String) : Fs → List String
  | .file => [base]
  | .dir _ entries => allFilesEntries base entries
def allFilesEntries (base : String) : Entries → List String
  | .nil => []
  | .cons name sub rest => allFiles (childPath base name) sub ++ allFilesEntries base rest
end

mutual
/- Every directory in the tree can be read (no permission failures). -/
def allReadable : Fs → Bool
  | .file => true
  | .dir ok entries => ok && allReadableEntries entries
def allReadableEntries : Entries → Bool
  | .nil => true
  | .cons _ sub rest => allReadable sub && allReadableEntries rest
end

/- The lofty tag container: the primary tag holds a picture list (raw byte
   vectors) and optional title and artist strings. -/
structure TagData where
  pictures : List (List Nat)
  title : Option String
  artist : Option String

structure TaggedFile where
  primary_tag : Option TagData

/- The external world for one controller step: whether
   OutputStream::try_default, fs::File::open, rodio::Decoder::new and
   Sink::try_new succeed, what lofty::read_from_path parses, the folder
   dialog's answer and the filesystem tree under a root path. -/
structure Env where
  tryDefaultOk : Bool
  openOk : String → Bool
  decodeOk : String → Bool
  sinkOk : Bool
  read_from_path : String → Option TaggedFile
  dialog : Option String
  tree : String → Fs

/- lofty::read_from_path(p).ok()?.primary_tag()?
     .pictures().first().map(|p| p.data().to_vec()) -/
def extract_album_art (env : Env) (file_path : String) : Option (List Nat) :=
  match env.read_from_path file_path with
  | none => none
  | some f =>
    match f.primary_tag with
    | none => none
    | some tag => tag.pictures.head?

/- Title and artist from the primary tag; (None, None) when read_from_path
   fails or there is no primary tag. -/
def extract_metadata (env : Env) (file_path : String) : Option String × Option String :=
  match env.read_from_path file_path with
  | some f =>
    match f.primary_tag with
    | some tag => (tag.title, tag.artist)
    | none => (none, none)
  | none => (none, none)

/- The controller state.  playing_stream stands for the
   Option<(OutputStream, OutputStreamHandle)> pair and sink for the
   Option<Sink>; both are modelled by the numeric identity of the live
   resource so that distinct acquisitions are distinguishable. -/
structure MusicJester where
  selected_folder : String
  audio_files : List String
  scan_status : String
  playing_stream : Option Nat
  sink : Option Nat
  album_art : Option (List Nat)
  song_title : Option String
  artist : Option String

inductive Message where
  | FolderButtonPressed : Message
  | FolderSelected : Option String → Message
  | ScanComplete : List String → Message
  | PlayAudio : String → Message
  | PausePlayback : Message
  | ResumePlayback : Message
  | StopPlayback : Message
  | DisplayAlbumArtAndMetadata : Option (List Nat) → Option String → Option String → Message

/- The asynchronous commands the controller issues (Command::perform calls).
   displayMeta already carries the extracted values because the source
   extracts them synchronously inside update and the async block only
   forwards the tuple. -/
inductive Cmd where
  | pickFolder : Cmd
  | scan : String → Cmd
  | displayMeta : Option (List Nat) → Option String → Option String → Cmd

/- Calls made on the audio objects, recorded so that no-op handlers are
   distinguishable from handlers that pause / resume / stop a sink. -/
inductive AudioEffect where
  | stop : Nat → AudioEffect
  | pause : Nat → AudioEffect
  | play : Nat → AudioEffect
  | appendDecoder : Nat → AudioEffect
  | logOpenFailed : AudioEffect
  | logDecodeFailed : AudioEffect

/- MusicJester::update.  n is the next fresh resource identity; the result
   is the new state, the issued command (none for Command::none()), the
   audio calls performed, and the next fresh identity. -/
def update (env : Env) (n : Nat) (s : MusicJester) (m : Message) :
    MusicJester × Option Cmd × List AudioEffect × Nat :=
  match m with
  | .FolderButtonPressed => (s, some Cmd.pickFolder, [], n)
  | .FolderSelected maybe_path =>
    match maybe_path with
    | some path =>
      ({ s with selected_folder := path, audio_files := [],
                scan_status := "Scanning..." },
       some (Cmd.scan path), [], n)
    | none => (s, none, [], n)
  | .ScanComplete files =>
    ({ s with audio_files := files,
              scan_status := "Found " ++ toString files.length ++ " audio files" },
     none, [], n)
  | .PlayAudio file_path =>
    let stopPrior : List AudioEffect :=
      match s.sink with
      | some i => [AudioEffect.stop i]
      | none => []
    let s := { s with sink := none, playing_stream := none }
    if env.tryDefaultOk then
      if env.openOk file_path then
        if env.decodeOk file_path then
          if env.sinkOk then
            ({ s with sink := some n, playing_stream := some n },
             some (Cmd.displayMeta (extract_album_art env file_path)
                     (extract_metadata env file_path).1
                     (extract_metadata env file_path).2),
             stopPrior ++ [AudioEffect.appendDecoder n, AudioEffect.play n], n + 1)
          else (s, none, stopPrior, n)
        else (s, none, stopPrior ++ [AudioEffect.logDecodeFailed], n)
      else (s, none, stopPrior ++ [AudioEffect.logOpenFailed], n)
    else (s, none, stopPrior, n)
  | .DisplayAlbumArtAndMetadata art title artist =>
    match art, title, artist with
    | some album_art, some t, some a =>
      ({ s with album_art := some album_art, song_title := some t, artist := some a },
       none, [], n)
    | _, _, _ =>
      ({ s with album_art := none, song_title := none, artist := none }, none, [], n)
  | .PausePlayback =>
    match s.sink with
    | some i => (s, none, [AudioEffect.pause i], n)
    | none => (s, none, [], n)
  | .ResumePlayback =>
    match s.sink with
    | some i => (s, none, [AudioEffect.play i], n)
    | none => (s, none, [], n)
  | .StopPlayback =>
    ({ s with sink := none, playing_stream := none,
              album_art := none, song_title := none, artist := none },
     none,
     (match s.sink with
      | some i => [AudioEffect.stop i]
      | none => []),
     n)

/- MusicJester::new. -/
def MusicJester.new : MusicJester × Option Cmd :=
  ({ selected_folder := "", audio_files := [], scan_status := "",
     playing_stream := none, sink := none,
     album_art := none, song_title := none, artist := none }, none)

/- The running system: the controller state, the commands whose futures
   have been spawned but whose result message has not yet been delivered,
   and the next fresh resource identity. -/
structure Sys where
  app : MusicJester
  pending : List Cmd
  nextId : Nat

/- The message a completing command delivers, resolved against the world at
   completion time. -/
def resolve (env : Env) : Cmd → Message
  | .pickFolder => .FolderSelected env.dialog
  | .scan folder => .ScanComplete (find_audio_files folder (env.tree folder))
  | .displayMeta art t a => .DisplayAlbumArtAndMetadata art t a

def applyMsg (env : Env) (sys : Sys) (m : Message) : Sys :=
  let r := update env sys.nextId sys.app m
  { app := r.1, pending := sys.pending ++ (r.2.1).toList, nextId := r.2.2.2 }

def deliverCmd (env : Env) (sys : Sys) (i : Nat) : Sys :=
  match sys.pending[i]? with
  | some c => applyMsg env { sys with pending := sys.pending.eraseIdx i } (resolve env c)
  | none => sys

/- The intents the rendered view can emit: the folder button is always
   shown; a play button exists for each scanned file; the pause, resume and
   stop buttons are only rendered while a sink exists. -/
def userVisible (a : MusicJester) : Message → Bool
  | .FolderButtonPressed => true
  | .PlayAudio p => a.audio_files.contains p
  | .PausePlayback => a.sink.isSome
  | .ResumePlayback => a.sink.isSome
  | .StopPlayback => a.sink.isSome
  | _ => false

def initSys : Sys := { app := MusicJester.new.1, pending := [], nextId := 0 }

/- One system step: the user emits a visible intent, or some pending
   command (any of them: completion order is not guaranteed) completes and
   its message is delivered.  The environment is arbitrary at each step. -/
inductive SysStep : Sys → Sys → Prop where
  | user (s : Sys) (env : Env) (m : Message) (h : userVisible s.app m = true) :
      SysStep s (applyMsg env s m)
  | deliver (s : Sys) (env : Env) (i : Nat) (h : i < s.pending.length) :
      SysStep s (deliverCmd env s i)

inductive Reachable : Sys → Prop where
  | init : Reachable initSys
  | step {s t : Sys} (hr : Reachable s) (hst : SysStep s t) : Reachable t

/- The three metadata fields are all present together or all absent. -/
def metaTogether (a : MusicJester) : Prop :=
  (a.album_art = none ∧ a.song_title = none ∧ a.artist = none) ∨
  (a.album_art ≠ none ∧ a.song_title ≠ none ∧ a.artist ≠ none)

/- Any identity stored in the sink field was allocated earlier. -/
def sinkBounded (sys : Sys) : Prop :=
  ∀ i, sys.app.sink = some i → i < sys.nextId

/- Concrete data for scenarios, witnesses and counterexamples. -/

def demoTree : Fs :=
  .dir true (.cons "a.mp3" .file (.cons "b.txt" .file
    (.cons "sub" (.dir true (.cons "c.flac" .file .nil)) .nil)))

def twoTrackTree : Fs :=
  .dir true (.cons "a.mp3" .file (.cons "b.mp3" .file .nil))

def tagA : TaggedFile :=
  { primary_tag := some { pictures := [[7]], title := some "TitleA", artist := some "ArtistA" } }

def tagB : TaggedFile :=
  { primary_tag := some { pictures := [[8]], title := some "TitleB", artist := some "ArtistB" } }

/- A fully successful world: device, open, decode and sink all succeed;
   track root/a.mp3 carries tag A and every other file tag B; the dialog
   picks "root" whose tree holds the two tracks. -/
def envAll : Env :=
  { tryDefaultOk := true, openOk := fun _ => true, decodeOk := fun _ => true,
    sinkOk := true,
    read_from_path := fun p => if p = "root/a.mp3" then some tagA else some tagB,
    dialog := some "root",
    tree := fun _ => twoTrackTree }

/- Same world except OutputStream::try_default fails. -/
def envNoDevice : Env := { envAll with tryDefaultOk := false }

/- A world where every tag parse fails and nothing is configured. -/
def baseEnv : Env :=
  { tryDefaultOk := true, openOk := fun _ => true, decodeOk := fun _ => true,
    sinkOk := true, read_from_path := fun _ => none, dialog := none,
    tree := fun _ => Fs.file }

/- A state holding a live sink, for witnesses. -/
def demoPlaying : MusicJester :=
  { MusicJester.new.1 with sink := some 5, playing_stream := some 5 }

/- Shared trace: pick the folder, scan it, obtain the two-track list. -/
def t_sys1 : Sys := applyMsg envAll initSys Message.FolderButtonPressed
def t_sys2 : Sys := deliverCmd envAll t_sys1 0
def t_sys3 : Sys := deliverCmd envAll t_sys2 0

/- Trace for claim C1: play track a, receive its metadata, then fail to
   play track b (no output device). -/
def c1_sys4 : Sys := applyMsg envAll t_sys3 (Message.PlayAudio "root/a.mp3")
def c1_sys5 : Sys := deliverCmd envAll c1_sys4 0
def c1_sys6 : Sys := applyMsg envNoDevice c1_sys5 (Message.PlayAudio "root/b.mp3")

/- Trace for claim C4: play a, then b, then deliver b's metadata result
   followed by a's stale result. -/
def c4_sys4 : Sys := applyMsg envAll t_sys3 (Message.PlayAudio "root/a.mp3")
def c4_sys5 : Sys := applyMsg envAll c4_sys4 (Message.PlayAudio "root/b.mp3")
def c4_sys6 : Sys := deliverCmd envAll c4_sys5 1
def c4_sys7 : Sys := deliverCmd envAll c4_sys6 0

end Jester
namespace Jester

theorem find_entries_append (base : String) :
    ∀ (e1 e2 : Entries),
      find_audio_files_entries base (e1.append e2)
        = find_audio_files_entries base e1 ++ find_audio_files_entries base e2
  | .nil, e2 => by simp [Entries.append, find_audio_files_entries]
  | .cons name sub rest, e2 => by
    simp [Entries.append, find_audio_files_entries,
      find_entries_append base rest e2, List.append_assoc]

mutual
theorem find_eq_filter_all : ∀ (base : String) (t : Fs),
    t.isDir = true → allReadable t = true →
    find_audio_files base t
      = (allFiles base t).filter (fun p => is_supported_audio_file p)
  | _, .file, hd, _ => by simp [Fs.isDir] at hd
  | base, .dir ok entries, _, hr => by
    have h : ok = true ∧ allReadableEntries entries = true := by
      simpa [allReadable, Bool.and_eq_true] using hr
    obtain ⟨h1, h2⟩ := h
    subst h1
    simpa [find_audio_files, allFiles] using find_entries_eq_filter_all base entries h2
theorem find_entries_eq_filter_all : ∀ (base : String) (es : Entries),
    allReadableEntries es = true →
    find_audio_files_entries base es
      = (allFilesEntries base es).filter (fun p => is_supported_audio_file p)
  | _, .nil, _ => rfl
  | base, .cons name sub rest, hr => by
    have h : allReadable sub = true ∧ allReadableEntries rest = true := by
      simpa [allReadableEntries, Bool.and_eq_true] using hr
    have hrest := find_entries_eq_filter_all base rest h.2
    cases sub with
    | file =>
      by_cases hc : is_supported_audio_file (childPath base name) = true <;>
        simp [find_audio_files_entries, allFilesEntries, allFiles, Fs.isDir,
          hc, hrest, List.filter_cons]
    | dir ok2 es2 =>
      have hsub := find_eq_filter_all (childPath base name) (.dir ok2 es2) rfl h.1
      simp [find_audio_files_entries, allFilesEntries, Fs.isDir, hsub, hrest,
        List.filter_append]
end

end Jester
namespace Jester

theorem update_playAudio_meta_fields (env : Env) (n : Nat) (s : MusicJester) (p : String) :
    (update env n s (.PlayAudio p)).1.album_art = s.album_art ∧
    (update env n s (.PlayAudio p)).1.song_title = s.song_title ∧
    (update env n s (.PlayAudio p)).1.artist = s.artist := by
  cases h1 : env.tryDefaultOk <;> cases h2 : env.openOk p <;>
    cases h3 : env.decodeOk p <;> cases h4 : env.sinkOk <;>
      simp [update, h1, h2, h3, h4]

theorem playAudio_failure (env : Env) (n : Nat) (s : MusicJester) (p : String)
    (hf : env.tryDefaultOk = false ∨ env.openOk p = false ∨
          env.decodeOk p = false ∨ env.sinkOk = false) :
    (update env n s (.PlayAudio p)).1 = { s with sink := none, playing_stream := none } ∧
    (update env n s (.PlayAudio p)).2.1 = none ∧
    (update env n s (.PlayAudio p)).2.2.2 = n := by
  cases h1 : env.tryDefaultOk <;> cases h2 : env.openOk p <;>
    cases h3 : env.decodeOk p <;> cases h4 : env.sinkOk <;>
      simp [update, h1, h2, h3, h4] <;> simp [h1, h2, h3, h4] at hf

theorem playAudio_teardown_first (env : Env) (n : Nat) (s : MusicJester) (p : String) :
    (update env n s (.PlayAudio p)).1
      = (update env n { s with sink := none, playing_stream := none } (.PlayAudio p)).1 ∧
    (update env n s (.PlayAudio p)).2.1
      = (update env n { s with sink := none, playing_stream := none } (.PlayAudio p)).2.1 ∧
    (update env n s (.PlayAudio p)).2.2.2
      = (update env n { s with sink := none, playing_stream := none } (.PlayAudio p)).2.2.2 := by
  cases h1 : env.tryDefaultOk <;> cases h2 : env.openOk p <;>
    cases h3 : env.decodeOk p <;> cases h4 : env.sinkOk <;>
      simp [update, h1, h2, h3, h4]

theorem playAudio_stops_prior (env : Env) (n : Nat) (s : MusicJester) (p : String)
    (i : Nat) (hs : s.sink = some i) :
    ((update env n s (.PlayAudio p)).2.2.1).head? = some (AudioEffect.stop i) := by
  cases h1 : env.tryDefaultOk <;> cases h2 : env.openOk p <;>
    cases h3 : env.decodeOk p <;> cases h4 : env.sinkOk <;>
      simp [update, h1, h2, h3, h4, hs]

theorem playAudio_success (env : Env) (n : Nat) (s : MusicJester) (p : String)
    (h1 : env.tryDefaultOk = true) (h2 : env.openOk p = true)
    (h3 : env.decodeOk p = true) (h4 : env.sinkOk = true) :
    (update env n s (.PlayAudio p)).1.sink = some n ∧
    (update env n s (.PlayAudio p)).1.playing_stream = some n ∧
    (update env n s (.PlayAudio p)).2.1
      = some (Cmd.displayMeta (extract_album_art env p)
          (extract_metadata env p).1 (extract_metadata env p).2) ∧
    (update env n s (.PlayAudio p)).2.2.2 = n + 1 := by
  simp [update, h1, h2, h3, h4]

theorem update_pause_shape (env : Env) (n : Nat) (s : MusicJester) :
    (update env n s .PausePlayback).1 = s ∧
    (update env n s .PausePlayback).2.1 = none ∧
    (update env n s .PausePlayback).2.2.2 = n := by
  cases hs : s.sink <;> simp [update, hs]

theorem update_resume_shape (env : Env) (n : Nat) (s : MusicJester) :
    (update env n s .ResumePlayback).1 = s ∧
    (update env n s .ResumePlayback).2.1 = none ∧
    (update env n s .ResumePlayback).2.2.2 = n := by
  cases hs : s.sink <;> simp [update, hs]

end Jester
namespace Jester

theorem update_metaTogether (env : Env) (n : Nat) (s : MusicJester) (m : Message)
    (h : metaTogether s) : metaTogether (update env n s m).1 := by
  cases m with
  | FolderButtonPressed => exact h
  | FolderSelected mp =>
    cases mp with
    | none => exact h
    | some path =>
      rcases h with h | h
      · exact Or.inl ⟨h.1, h.2.1, h.2.2⟩
      · exact Or.inr ⟨h.1, h.2.1, h.2.2⟩
  | ScanComplete files =>
    rcases h with h | h
    · exact Or.inl ⟨h.1, h.2.1, h.2.2⟩
    · exact Or.inr ⟨h.1, h.2.1, h.2.2⟩
  | PlayAudio p =>
    obtain ⟨e1, e2, e3⟩ := update_playAudio_meta_fields env n s p
    rcases h with h | h
    · exact Or.inl ⟨e1.trans h.1, e2.trans h.2.1, e3.trans h.2.2⟩
    · refine Or.inr ⟨?_, ?_, ?_⟩
      · rw [e1]; exact h.1
      · rw [e2]; exact h.2.1
      · rw [e3]; exact h.2.2
  | DisplayAlbumArtAndMetadata art t a =>
    cases art <;> cases t <;> cases a <;>
      first
      | exact Or.inl ⟨rfl, rfl, rfl⟩
      | exact Or.inr ⟨Option.some_ne_none _, Option.some_ne_none _, Option.some_ne_none _⟩
  | PausePlayback =>
    have e := (update_pause_shape env n s).1
    rw [e]; exact h
  | ResumePlayback =>
    have e := (update_resume_shape env n s).1
    rw [e]; exact h
  | StopPlayback => exact Or.inl ⟨rfl, rfl, rfl⟩

theorem applyMsg_metaTogether (env : Env) (sys : Sys) (m : Message)
    (h : metaTogether sys.app) : metaTogether (applyMsg env sys m).app :=
  update_metaTogether env sys.nextId sys.app m h

theorem deliverCmd_metaTogether (env : Env) (sys : Sys) (i : Nat)
    (h : metaTogether sys.app) : metaTogether (deliverCmd env sys i).app := by
  unfold deliverCmd
  cases hg : sys.pending[i]? with
  | none => simpa [hg] using h
  | some c =>
    simpa [hg] using
      applyMsg_metaTogether env { sys with pending := sys.pending.eraseIdx i }
        (resolve env c) h

theorem reachable_metaTogether : ∀ sys, Reachable sys → metaTogether sys.app := by
  intro sys h
  induction h with
  | init => exact Or.inl ⟨rfl, rfl, rfl⟩
  | step hr hst ih =>
    cases hst with
    | user env m hm => exact applyMsg_metaTogether env _ m ih
    | deliver env i hi => exact deliverCmd_metaTogether env _ i ih

theorem update_sinkBound (env : Env) (n : Nat) (s : MusicJester) (m : Message)
    (h : ∀ i, s.sink = some i → i < n) :
    ∀ i, (update env n s m).1.sink = some i → i < (update env n s m).2.2.2 := by
  cases m with
  | FolderButtonPressed => exact h
  | FolderSelected mp =>
    cases mp with
    | none => exact h
    | some path => exact h
  | ScanComplete files => exact h
  | PlayAudio p =>
    cases h1 : env.tryDefaultOk <;> cases h2 : env.openOk p <;>
      cases h3 : env.decodeOk p <;> cases h4 : env.sinkOk <;>
        intro i hi <;> simp [update, h1, h2, h3, h4] at hi ⊢ <;> omega
  | DisplayAlbumArtAndMetadata art t a =>
    cases art <;> cases t <;> cases a <;> exact h
  | PausePlayback =>
    intro i hi
    rw [(update_pause_shape env n s).1] at hi
    rw [(update_pause_shape env n s).2.2]
    exact h i hi
  | ResumePlayback =>
    intro i hi
    rw [(update_resume_shape env n s).1] at hi
    rw [(update_resume_shape env n s).2.2]
    exact h i hi
  | StopPlayback => intro i hi; simp [update] at hi

theorem applyMsg_sinkBounded (env : Env) (sys : Sys) (m : Message)
    (h : sinkBounded sys) : sinkBounded (applyMsg env sys m) :=
  update_sinkBound env sys.nextId sys.app m h

theorem deliverCmd_sinkBounded (env : Env) (sys : Sys) (i : Nat)
    (h : sinkBounded sys) : sinkBounded (deliverCmd env sys i) := by
  unfold deliverCmd
  cases hg : sys.pending[i]? with
  | none => simpa [hg] using h
  | some c =>
    simpa [hg] using
      applyMsg_sinkBounded env { sys with pending := sys.pending.eraseIdx i }
        (resolve env c) h

theorem reachable_sinkBounded : ∀ sys, Reachable sys → sinkBounded sys := by
  intro sys h
  induction h with
  | init => intro i hi; simp [initSys, MusicJester.new] at hi
  | step hr hst ih =>
    cases hst with
    | user env m hm => exact applyMsg_sinkBounded env _ m ih
    | deliver env i hi => exact deliverCmd_sinkBounded env _ i ih

end Jester
namespace Jester

/-- Claim C1 (corrected), counterexample: a reachable state (choose folder,
scan, play root/a.mp3 successfully, receive its metadata, then fail to play
root/b.mp3 because no output device is available) in which no
PlaybackSession exists (sink and playing_stream are None) yet the previous
track's metadata is still present — the failed PlayAudio did not clear it. -/
theorem c1_counterexample :
    Reachable c1_sys6 ∧ c1_sys6.app.sink = none ∧ c1_sys6.app.playing_stream = none ∧
    c1_sys6.app.album_art = some [7] ∧ c1_sys6.app.song_title = some "TitleA" ∧
    c1_sys6.app.artist = some "ArtistA" :=
  ⟨Reachable.step
    (Reachable.step
      (Reachable.step
        (Reachable.step
          (Reachable.step
            (Reachable.step Reachable.init
              (SysStep.user initSys envAll Message.FolderButtonPressed rfl))
            (SysStep.deliver t_sys1 envAll 0 (by decide)))
          (SysStep.deliver t_sys2 envAll 0 (by decide)))
        (SysStep.user t_sys3 envAll (Message.PlayAudio "root/a.mp3") (by decide)))
      (SysStep.deliver c1_sys4 envAll 0 (by decide)))
    (SysStep.user c1_sys5 envNoDevice (Message.PlayAudio "root/b.mp3") (by decide)),
   rfl, rfl, rfl, rfl, rfl⟩

/-- Claim C1, amended: handling StopPlayback clears the playback session and
all three metadata fields together, but handling PlayAudio never touches the
metadata fields, so a failed PlayAudio (and a new-track start, until the new
extraction result arrives) leaves the previous track's metadata in place. -/
theorem c1_stop_clears_metadata :
    (∀ (env : Env) (n : Nat) (s : MusicJester),
      (update env n s Message.StopPlayback).1
        = { s with sink := none, playing_stream := none,
                   album_art := none, song_title := none, artist := none }) ∧
    (∀ (env : Env) (n : Nat) (s : MusicJester) (p : String),
      (update env n s (Message.PlayAudio p)).1.album_art = s.album_art ∧
      (update env n s (Message.PlayAudio p)).1.song_title = s.song_title ∧
      (update env n s (Message.PlayAudio p)).1.artist = s.artist) :=
  ⟨fun env n s => rfl, fun env n s p => update_playAudio_meta_fields env n s p⟩

end Jester
namespace Jester

/-- Claim C2: handling PlayAudio stops and discards any prior sink and
output stream before attempting acquisition — the prior sink is stopped
first, and the outcome is the same as from a state with no session, so at
most one sink is ever live (any stored sink identity is a previously
allocated one, and a successful start stores the fresh identity); if any
pipeline step (device, file open, decode, sink creation) fails, the state
afterward has sink and playing_stream None and no metadata command is
issued. -/
theorem c2_single_session :
    (∀ (env : Env) (n : Nat) (s : MusicJester) (p : String),
      (env.tryDefaultOk = false ∨ env.openOk p = false ∨
       env.decodeOk p = false ∨ env.sinkOk = false) →
      (update env n s (Message.PlayAudio p)).1
          = { s with sink := none, playing_stream := none } ∧
      (update env n s (Message.PlayAudio p)).2.1 = none) ∧
    (∀ (env : Env) (n : Nat) (s : MusicJester) (p : String) (i : Nat),
      s.sink = some i →
      ((update env n s (Message.PlayAudio p)).2.2.1).head?
        = some (AudioEffect.stop i)) ∧
    (∀ (env : Env) (n : Nat) (s : MusicJester) (p : String),
      (update env n s (Message.PlayAudio p)).1
        = (update env n { s with sink := none, playing_stream := none }
            (Message.PlayAudio p)).1 ∧
      (update env n s (Message.PlayAudio p)).2.1
        = (update env n { s with sink := none, playing_stream := none }
            (Message.PlayAudio p)).2.1) ∧
    (∀ (env : Env) (n : Nat) (s : MusicJester) (p : String),
      env.tryDefaultOk = true → env.openOk p = true →
      env.decodeOk p = true → env.sinkOk = true →
      (update env n s (Message.PlayAudio p)).1.sink = some n ∧
      (update env n s (Message.PlayAudio p)).1.playing_stream = some n ∧
      (update env n s (Message.PlayAudio p)).2.2.2 = n + 1) ∧
    (∀ sys, Reachable sys → sinkBounded sys) :=
  ⟨fun env n s p hf =>
    ⟨(playAudio_failure env n s p hf).1, (playAudio_failure env n s p hf).2.1⟩,
   fun env n s p i hs => playAudio_stops_prior env n s p i hs,
   fun env n s p =>
    ⟨(playAudio_teardown_first env n s p).1, (playAudio_teardown_first env n s p).2.1⟩,
   fun env n s p h1 h2 h3 h4 =>
    ⟨(playAudio_success env n s p h1 h2 h3 h4).1,
     (playAudio_success env n s p h1 h2 h3 h4).2.1,
     (playAudio_success env n s p h1 h2 h3 h4).2.2.2⟩,
   reachable_sinkBounded⟩

/-- Witness for C2: with no output device the play attempt on a state
holding sink 5 ends with no session and no command; with everything
working the prior sink 5 is stopped first and the fresh sink 0 is stored;
the initial system satisfies the sink identity bound. -/
theorem c2_witness :
    ((update envNoDevice 0 demoPlaying (Message.PlayAudio "x")).1
        = { demoPlaying with sink := none, playing_stream := none } ∧
     (update envNoDevice 0 demoPlaying (Message.PlayAudio "x")).2.1 = none) ∧
    ((update envAll 0 demoPlaying (Message.PlayAudio "x")).2.2.1).head?
        = some (AudioEffect.stop 5) ∧
    (update envAll 0 demoPlaying (Message.PlayAudio "x")).1.sink = some 0 ∧
    sinkBounded initSys :=
  ⟨c2_single_session.1 envNoDevice 0 demoPlaying "x" (Or.inl rfl),
   c2_single_session.2.1 envAll 0 demoPlaying "x" 5 rfl,
   (c2_single_session.2.2.2.1 envAll 0 demoPlaying "x" rfl rfl rfl rfl).1,
   c2_single_session.2.2.2.2 initSys Reachable.init⟩

/-- Claim C3: over any fully readable directory tree, find_audio_files
returns exactly the files at any depth whose extension (case-sensitive) is
mp3, m4a, flac, wav or ogg — the filter of the full file enumeration by
is_supported_audio_file; other files and all directories are excluded. -/
theorem c3_scanner_exact (base : String) (t : Fs)
    (hd : t.isDir = true) (hr : allReadable t = true) :
    find_audio_files base t
      = (allFiles base t).filter (fun p => is_supported_audio_file p) :=
  find_eq_filter_all base t hd hr

/-- Witness for C3: the scenario tree rooted at "root" containing a.mp3,
b.txt and sub/c.flac. -/
theorem c3_witness :
    find_audio_files "root" demoTree
      = (allFiles "root" demoTree).filter (fun p => is_supported_audio_file p) :=
  c3_scanner_exact "root" demoTree rfl (by decide)

/-- Claim C4 (corrected), counterexample: a reachable trace (play
root/a.mp3, then root/b.mp3, then deliver b's metadata result followed by
a's stale one) in which the stale result for the replaced track a
overwrites the metadata of the currently playing track b: the final state
plays b (the second allocated sink, identity 1, and b's tag carries
TitleB/ArtistB) yet displays a's title, artist and artwork. -/
theorem c4_counterexample :
    Reachable c4_sys7 ∧ c4_sys7.app.sink = some 1 ∧
    extract_metadata envAll "root/b.mp3" = (some "TitleB", some "ArtistB") ∧
    c4_sys7.app.song_title = some "TitleA" ∧
    c4_sys7.app.artist = some "ArtistA" ∧
    c4_sys7.app.album_art = some [7] :=
  ⟨Reachable.step
    (Reachable.step
      (Reachable.step
        (Reachable.step
          (Reachable.step
            (Reachable.step
              (Reachable.step Reachable.init
                (SysStep.user initSys envAll Message.FolderButtonPressed rfl))
              (SysStep.deliver t_sys1 envAll 0 (by decide)))
            (SysStep.deliver t_sys2 envAll 0 (by decide)))
          (SysStep.user t_sys3 envAll (Message.PlayAudio "root/a.mp3") (by decide)))
        (SysStep.user c4_sys4 envAll (Message.PlayAudio "root/b.mp3") (by decide)))
      (SysStep.deliver c4_sys5 envAll 1 (by decide)))
    (SysStep.deliver c4_sys6 envAll 0 (by decide)),
   rfl, rfl, rfl, rfl, rfl⟩

/-- Claim C4, amended: the controller applies every
DisplayAlbumArtAndMetadata result unconditionally — the message carries no
originating file path and the handler consults no field of the current
state, so a result delivered after its track was stopped or replaced still
overwrites the current metadata (last delivered wins): a full result sets
all three fields to its payload and any partial result clears all three,
whatever track is active. -/
theorem c4_unconditional_metadata_apply :
    (∀ (env : Env) (n : Nat) (s : MusicJester) art t a,
      (update env n s (Message.DisplayAlbumArtAndMetadata (some art) (some t) (some a))).1
        = { s with album_art := some art, song_title := some t, artist := some a }) ∧
    (∀ (env : Env) (n : Nat) (s : MusicJester) t a,
      (update env n s (Message.DisplayAlbumArtAndMetadata none t a)).1
        = { s with album_art := none, song_title := none, artist := none }) ∧
    (∀ (env : Env) (n : Nat) (s : MusicJester) art a,
      (update env n s (Message.DisplayAlbumArtAndMetadata art none a)).1
        = { s with album_art := none, song_title := none, artist := none }) ∧
    (∀ (env : Env) (n : Nat) (s : MusicJester) art t,
      (update env n s (Message.DisplayAlbumArtAndMetadata art t none)).1
        = { s with album_art := none, song_title := none, artist := none }) :=
  ⟨fun env n s art t a => rfl,
   fun env n s t a => by cases t <;> cases a <;> rfl,
   fun env n s art a => by cases art <;> cases a <;> rfl,
   fun env n s art t => by cases art <;> cases t <;> rfl⟩

end Jester
namespace Jester

/-- Claim C5: handling ScanComplete(files) replaces the stored file list
with files outright and sets the status to "Found N audio files" with N the
length of files, leaving every other field unchanged; on the scenario tree
(a.mp3, b.txt, sub/c.flac under "root") the scan yields exactly
root/a.mp3 and root/sub/c.flac and the status reads "Found 2 audio files". -/
theorem c5_scan_complete :
    (∀ (env : Env) (n : Nat) (s : MusicJester) (files : List String),
      update env n s (Message.ScanComplete files)
        = ({ s with audio_files := files,
                    scan_status := "Found " ++ toString files.length ++ " audio files" },
           none, [], n)) ∧
    find_audio_files "root" demoTree = ["root/a.mp3", "root/sub/c.flac"] ∧
    (update baseEnv 0 MusicJester.new.1
        (Message.ScanComplete (find_audio_files "root" demoTree))).1.audio_files
      = ["root/a.mp3", "root/sub/c.flac"] ∧
    (update baseEnv 0 MusicJester.new.1
        (Message.ScanComplete (find_audio_files "root" demoTree))).1.scan_status
      = "Found 2 audio files" :=
  ⟨fun env n s files => rfl, by decide, by decide, by decide⟩

/-- Claim C6: an unreadable subdirectory yields zero entries from its
subtree and leaves the results from its readable siblings unchanged — the
scan of a directory containing it equals the scan of the same directory
with that entry removed, which is the concatenation of the sibling
results. -/
theorem c6_unreadable_isolated (base name : String) (e1 e2 es : Entries) :
    find_audio_files (childPath base name) (Fs.dir false es) = [] ∧
    find_audio_files base (Fs.dir true (e1.append (Entries.cons name (Fs.dir false es) e2)))
      = find_audio_files base (Fs.dir true (e1.append e2)) ∧
    find_audio_files base (Fs.dir true (e1.append (Entries.cons name (Fs.dir false es) e2)))
      = find_audio_files_entries base e1 ++ find_audio_files_entries base e2 := by
  refine ⟨rfl, ?_, ?_⟩ <;>
    simp [find_audio_files, find_entries_append, find_audio_files_entries, Fs.isDir]

/-- Claim C7: extract_album_art returns the raw bytes of the first attached
picture exactly when the tag container parses and its primary tag has at
least one picture, and None otherwise (parse failure, no primary tag, or no
pictures); extract_metadata returns the tag's title and artist, each
independently optional, and (None, None) on parse failure or missing tag. -/
theorem c7_extractors :
    (∀ (env : Env) (p : String) (f : TaggedFile) (tag : TagData)
        (pic : List Nat) (pics : List (List Nat)),
      env.read_from_path p = some f → f.primary_tag = some tag →
      tag.pictures = pic :: pics → extract_album_art env p = some pic) ∧
    (∀ (env : Env) (p : String) (f : TaggedFile) (tag : TagData),
      env.read_from_path p = some f → f.primary_tag = some tag →
      tag.pictures = [] → extract_album_art env p = none) ∧
    (∀ (env : Env) (p : String) (f : TaggedFile),
      env.read_from_path p = some f → f.primary_tag = none →
      extract_album_art env p = none ∧ extract_metadata env p = (none, none)) ∧
    (∀ (env : Env) (p : String),
      env.read_from_path p = none →
      extract_album_art env p = none ∧ extract_metadata env p = (none, none)) ∧
    (∀ (env : Env) (p : String) (f : TaggedFile) (tag : TagData),
      env.read_from_path p = some f → f.primary_tag = some tag →
      extract_metadata env p = (tag.title, tag.artist)) :=
  ⟨fun env p f tag pic pics hf ht hp => by
      simp [extract_album_art, hf, ht, hp],
   fun env p f tag hf ht hp => by simp [extract_album_art, hf, ht, hp],
   fun env p f hf ht => by
      constructor <;> simp [extract_album_art, extract_metadata, hf, ht],
   fun env p hf => by
      constructor <;> simp [extract_album_art, extract_metadata, hf],
   fun env p f tag hf ht => by simp [extract_metadata, hf, ht]⟩

/-- Witness for C7: in the successful world, track root/a.mp3 parses to tag
A with picture [7], title TitleA and artist ArtistA; in the failing world
the extractors return absent. -/
theorem c7_witness :
    extract_album_art envAll "root/a.mp3" = some [7] ∧
    extract_metadata envAll "root/a.mp3" = (some "TitleA", some "ArtistA") ∧
    extract_album_art baseEnv "root/a.mp3" = none ∧
    extract_metadata baseEnv "root/a.mp3" = (none, none) :=
  ⟨c7_extractors.1 envAll "root/a.mp3" tagA
      { pictures := [[7]], title := some "TitleA", artist := some "ArtistA" }
      [7] [] rfl rfl rfl,
   c7_extractors.2.2.2.2 envAll "root/a.mp3" tagA
      { pictures := [[7]], title := some "TitleA", artist := some "ArtistA" }
      rfl rfl,
   (c7_extractors.2.2.2.1 baseEnv "root/a.mp3" rfl).1,
   (c7_extractors.2.2.2.1 baseEnv "root/a.mp3" rfl).2⟩

/-- Claim C8: in every reachable state the three metadata fields are all
present together or all absent together; handling
DisplayAlbumArtAndMetadata sets all three when all three components are
present and normalizes any partial result to all three absent. -/
theorem c8_metadata_all_or_none :
    (∀ sys, Reachable sys → metaTogether sys.app) ∧
    (∀ (env : Env) (n : Nat) (s : MusicJester) art t a,
      (update env n s (Message.DisplayAlbumArtAndMetadata (some art) (some t) (some a))).1.album_art
          = some art ∧
      (update env n s (Message.DisplayAlbumArtAndMetadata (some art) (some t) (some a))).1.song_title
          = some t ∧
      (update env n s (Message.DisplayAlbumArtAndMetadata (some art) (some t) (some a))).1.artist
          = some a) ∧
    (∀ (env : Env) (n : Nat) (s : MusicJester) art t a,
      art = none ∨ t = none ∨ a = none →
      (update env n s (Message.DisplayAlbumArtAndMetadata art t a)).1.album_art = none ∧
      (update env n s (Message.DisplayAlbumArtAndMetadata art t a)).1.song_title = none ∧
      (update env n s (Message.DisplayAlbumArtAndMetadata art t a)).1.artist = none) :=
  ⟨reachable_metaTogether,
   fun env n s art t a => ⟨rfl, rfl, rfl⟩,
   fun env n s art t a h => by
    cases art <;> cases t <;> cases a <;>
      first
      | exact ⟨rfl, rfl, rfl⟩
      | (rcases h with h | h | h <;> simp at h)⟩

/-- Witness for C8: the initial system is reachable and satisfies the
invariant, and a full result sets all three fields. -/
theorem c8_witness :
    metaTogether initSys.app ∧
    (update baseEnv 0 MusicJester.new.1
        (Message.DisplayAlbumArtAndMetadata (some [1]) (some "t") (some "a"))).1.album_art
      = some [1] ∧
    (update baseEnv 0 MusicJester.new.1
        (Message.DisplayAlbumArtAndMetadata none (some "t") none)).1.song_title = none :=
  ⟨c8_metadata_all_or_none.1 initSys Reachable.init,
   (c8_metadata_all_or_none.2.1 baseEnv 0 MusicJester.new.1 [1] "t" "a").1,
   (c8_metadata_all_or_none.2.2 baseEnv 0 MusicJester.new.1 none (some "t") none
      (Or.inl rfl)).2.1⟩

/-- Claim C9: when no sink exists, handling PausePlayback or ResumePlayback
returns the state unchanged, issues no command, performs no audio call and
allocates nothing. -/
theorem c9_pause_resume_noop (env : Env) (n : Nat) (s : MusicJester)
    (h : s.sink = none) :
    update env n s Message.PausePlayback = (s, none, [], n) ∧
    update env n s Message.ResumePlayback = (s, none, [], n) := by
  constructor <;> simp [update, h]

/-- Witness for C9: the freshly created controller has no sink and both
messages leave it untouched. -/
theorem c9_witness :
    update baseEnv 0 MusicJester.new.1 Message.PausePlayback
      = (MusicJester.new.1, none, [], 0) ∧
    update baseEnv 0 MusicJester.new.1 Message.ResumePlayback
      = (MusicJester.new.1, none, [], 0) :=
  c9_pause_resume_noop baseEnv 0 MusicJester.new.1 rfl

/-- Claim C10: handling FolderSelected(None) — the folder dialog was
cancelled — returns every field of the state unchanged, issues no command
(no scan) and performs no audio call. -/
theorem c10_folder_cancel_noop (env : Env) (n : Nat) (s : MusicJester) :
    update env n s (Message.FolderSelected none) = (s, none, [], n) := rfl

end Jester
